import Mathlib

/-!
Verification of the universal-web-scraper crawl/extraction pipeline.

The Rust sources under `src/scrapy/src` are shallowly embedded:

* `models/mod.rs`  → `ScrapeParams`;
* `spider.rs`      → `GenericSpider`, `GenericSpider.new` (selector
  parsing with `unwrap`), `GenericSpider.scrape` (the selector loop over a
  parsed document) and `GenericSpider.process`;
* `services/ai_service.rs` → `producerChunks`/`producerEvents` (the
  spawned backend task), `consumeChunks` (the `rx.recv()` loop with its
  `EOF_MARKER` / `ERROR:` sentinels and the `chunk[7..]` slice),
  `parse_ai_response` and `extract_items`.

External collaborators (the HTTP client, the HTML/CSS library, the
generative-AI backend, serde_json) appear only at their boundary, as
function parameters or as explicit input data.  Parts of the repository
that are not among the provided sources (the crawl scheduler in
`crawler.rs`, the session orchestration in `routes.rs`, the error enum in
`error.rs`) are modelled from the specification; each such definition says
so in its doc comment.
-/

namespace Scrapy

/-- `ScrapeParams` from `models/mod.rs`: the inbound crawl request.  The
`api_key` field does not appear in the provided `models/mod.rs` but is
read by `GenericSpider::new` (spider.rs:50), so it is included here. -/
structure ScrapeParams where
  url : String
  model : String
  enable_scraping : Bool
  tags : List String
  enable_pagination : Bool
  pagination_details : Option String
  api_key : String
deriving Repr, DecidableEq

/-- Modelled from the spec: the error taxonomy of `error.rs`, which is not
among the provided sources.  Only the variants the claims mention are
modelled: `AI` (backend transport failure or malformed model output) and
`InvalidRequest` (bad session parameters). -/
inductive AppError where
  | AI (msg : String)
  | InvalidRequest
deriving Repr, DecidableEq

/-- Modelled from the spec: the human-readable message of an error, used
where the source formats an `AppError` with `{}` (the `Display` impl lives
in the missing `error.rs`).  The spec says an `AIError` is reported "with
the parser's message". -/
def AppError.message : AppError → String
  | .AI m => m
  | .InvalidRequest => "invalid request"

/-- A JSON-like opaque structured value (`serde_json::Value` at the
boundary): the extraction schema is user-specified, so items stay
schema-free. -/
inductive Json where
  | null
  | str (s : String)
  | num (n : Int)
  | arr (elems : List Json)

/-- Modelled from the spec: the event/`WebSocketMessage` variants published
to the Broadcast Channel (`WebSocketMessage` is declared in a module that
is not among the provided sources).  The constructors mirror the source's
smart constructors: `raw` → `rawItem`, `progress` → `progress`,
`scraping_result` → `scrapingChunk`, `success` → `success`,
`error` → `error`. -/
inductive Event where
  | progress (text : String)
  | rawItem (text : String)
  | scrapingChunk (text : String)
  | success (items : List Json)
  | error (text : String)

/-! ## Extractor (`spider.rs`)

`GenericSpider::scrape` fetches a page, parses it, then runs

    for selector in &self.selectors {
        for element in document.select(selector) {
            items.push(element.inner_html());
        }
    }
    Ok((items, vec![]))

The HTTP fetch and the HTML parse are external; a parsed document is
embedded as its elements in document order.  A CSS selector is embedded at
the library boundary as a tag-name selector: `document.select(sel)` yields
the document's elements matched by `sel`, in document order. -/

/-- One element of a parsed document: its tag name, its inner HTML, and
the anchor target when the element is a link. -/
structure Element where
  tag : String
  innerHtml : String
  href : Option String
deriving Repr, DecidableEq

/-- Whether a selector (embedded as a tag-name selector at the HTML
library's boundary) matches an element. -/
def selMatches (sel : String) (e : Element) : Bool :=
  e.tag == sel

/-- `document.select(selector)`: the matched elements in document order. -/
def select (doc : List Element) (sel : String) : List Element :=
  doc.filter (selMatches sel)

/-- The selector loop of `GenericSpider::scrape` (spider.rs:80-86): for
each selector in order, append every matched element's inner content. -/
def scrapeItems (sels : List String) (doc : List Element) : List String :=
  sels.foldl (fun items sel => items ++ (select doc sel).map Element.innerHtml) []

/-- `GenericSpider` (spider.rs:25-31): the pre-parsed selectors and the
request parameters.  The HTTP client and the service handles carry no
logic relevant to the claims. -/
structure GenericSpider where
  selectors : List String
  scrape_params : ScrapeParams
deriving Repr, DecidableEq

/-- `GenericSpider::scrape` (spider.rs:75-89) on an already-fetched,
already-parsed document: the items from the selector loop, and the
discovered-links component, which the source hard-codes to `vec![]`. -/
def GenericSpider.scrape (sp : GenericSpider) (doc : List Element) :
    List String × List String :=
  (scrapeItems sp.selectors doc, [])

theorem scrapeItems_foldl_append (sels : List String) (doc : List Element)
    (acc : List String) :
    sels.foldl (fun items sel => items ++ (select doc sel).map Element.innerHtml) acc
      = acc ++ (sels.map (fun sel => (select doc sel).map Element.innerHtml)).flatten := by
  induction sels generalizing acc with
  | nil => simp
  | cons s rest ih =>
      simp only [List.foldl_cons, List.map_cons, List.flatten_cons, ih, List.append_assoc]

/-- C2: the Extractor applies the selectors in the order given and appends
every matched element's inner content in selector-then-document order;
duplicates across overlapping selectors are preserved (each selector
contributes its full match list to the concatenation), and the result is a
pure function of the input, hence identical on repeated runs. -/
theorem scrape_selector_then_document_order (sp : GenericSpider) (doc : List Element) :
    (sp.scrape doc).1
      = (sp.selectors.map (fun sel => (select doc sel).map Element.innerHtml)).flatten
    ∧ (sp.scrape doc).1 = (sp.scrape doc).1 := by
  refine ⟨?_, rfl⟩
  unfold GenericSpider.scrape scrapeItems
  simpa using scrapeItems_foldl_append sp.selectors doc []

/-- C3, counterexample: with pagination enabled and a page containing an
anchor with an outbound target, `scrape` still returns no discovered
links — the source returns `Ok((items, vec![]))` unconditionally, so the
anchor target is neither extracted nor resolved. -/
theorem scrape_returns_no_links_counterexample :
    (GenericSpider.scrape
        ⟨["a"], ⟨"http://site.example/", "m", false, [], true, none, "k"⟩⟩
        [⟨"a", "next page", some "page2.html"⟩]).2 = []
    ∧ (⟨"a", "next page", some "page2.html"⟩ : Element).href = some "page2.html" := by
  exact ⟨rfl, rfl⟩

/-- C3, amended: `GenericSpider::scrape` performs no link discovery at
all — for every spider configuration (pagination enabled or not) and every
document, the discovered-links component of the result is empty. -/
theorem scrape_links_always_empty (sp : GenericSpider) (doc : List Element) :
    (sp.scrape doc).2 = [] :=
  rfl

/-! ## AI Extraction Step (`services/ai_service.rs`)

`AIService::extract_items` spawns a producer task that posts one request
to the backend and forwards its output through an mpsc channel, then runs
a consumer loop over the received chunks.  The backend call itself is
external; its outcome is an explicit input (`BackendOutcome`).  The JSON
parser (`serde_json::from_str`) is external; it is a function parameter
`fromStr`.  Rust's byte-indexed string operations on the sentinel strings
(`chunk.starts_with("ERROR:")`, `chunk[7..]`, which panics when the index
exceeds the string's length) are modelled on the character data of the
string: for the ASCII sentinels involved, bytes and characters agree. -/

/-- Rust's `&s[n..]` slice on the character data: defined only as a total
function; `consumeChunks` applies it only after checking the bound, and
represents the out-of-bounds panic explicitly. -/
def strDrop (s : String) (n : Nat) : String :=
  ⟨s.data.drop n⟩

/-- Rust's `s.starts_with(p)` on the character data. -/
def strStartsWith (s p : String) : Bool :=
  p.data.isPrefixOf s.data

/-- Rust's `s.len()` on the character data (equal to the byte length for
the ASCII strings the sentinels use). -/
def strLen (s : String) : Nat :=
  s.data.length

/-- The outcome of the external backend call `client.post(30, &request)`
at its boundary: on success, the text of the first part of the first
candidate of the response (if any); on failure, the transport error's
message. -/
inductive BackendOutcome where
  | ok (text : Option String)
  | err (msg : String)
deriving Repr, DecidableEq

/-- The spawned producer task (ai_service.rs:55-86): on success it sends
the response text (when present); on failure it sends
`"ERROR: " ++ msg`; in all cases it finally sends `"EOF_MARKER"`. -/
def producerChunks : BackendOutcome → List String
  | .ok none => ["EOF_MARKER"]
  | .ok (some t) => [t, "EOF_MARKER"]
  | .err e => ["ERROR: " ++ e, "EOF_MARKER"]

/-- The events the producer task itself publishes (ai_service.rs:78-80):
one `Error` event on transport failure, nothing otherwise. -/
def producerEvents : BackendOutcome → List Event
  | .ok _ => []
  | .err e => [.error ("AI processing failed: " ++ e)]

/-- The outcome of the consumer loop: `panicked` when `chunk[7..]` is out
of bounds, `failed` when an `ERROR:`-prefixed chunk aborts the loop,
`finished` with the accumulated buffer otherwise.  Event lists record the
messages published during the loop. -/
inductive ConsumeOutcome where
  | panicked
  | failed (msg : String) (events : List Event)
  | finished (buf : String) (events : List Event)

/-- The consumer loop of `extract_items` (ai_service.rs:88-104):

    while let Some(chunk) = rx.recv().await {
        if chunk == "EOF_MARKER" { break; }
        if chunk.starts_with("ERROR:") {
            let error_msg = chunk[7..].to_string();
            ...send error event...; return Err(AppError::AI(error_msg));
        }
        full_response.push_str(&chunk);
        ...send scraping_result event...
    }

`chunk[7..]` panics when the chunk is shorter than 7 bytes, which the
`starts_with("ERROR:")` guard (6 bytes) does not rule out. -/
def consumeChunks : List String → String → List Event → ConsumeOutcome
  | [], buf, evs => .finished buf evs
  | c :: rest, buf, evs =>
    if c = "EOF_MARKER" then .finished buf evs
    else if strStartsWith c "ERROR:" then
      if strLen c < 7 then .panicked
      else .failed (strDrop c 7) (evs ++ [.error (strDrop c 7)])
    else consumeChunks rest (buf ++ c) (evs ++ [.scrapingChunk c])

/-- `AIService::parse_ai_response` (ai_service.rs:189-196): parse the
accumulated buffer with the external JSON parser, mapping a parse error to
`AppError::AI` with the parser's message. -/
def parse_ai_response (fromStr : String → Except String (List Json))
    (response : String) : Except AppError (List Json) :=
  match fromStr response with
  | .ok v => .ok v
  | .error e => .error (.AI e)

/-- `AIService::extract_items` (ai_service.rs:38-134), as a function of
the backend outcome and the external JSON parser.  The result is the
ordered list of events published to the websocket service together with
the returned value; `none` represents the panic of `chunk[7..]`.  The
producer's own error event precedes the consumer's events, matching the
channel order (the producer sends its event before the `ERROR:` chunk the
consumer reacts to). -/
def extract_items (fromStr : String → Except String (List Json))
    (backend : BackendOutcome) :
    Option (List Event × Except AppError (List Json)) :=
  let startEvs := Event.progress "Starting AI processing..." :: producerEvents backend
  match consumeChunks (producerChunks backend) "" [] with
  | .panicked => none
  | .failed m evs => some (startEvs ++ evs, .error (.AI m))
  | .finished buf evs =>
    match parse_ai_response fromStr buf with
    | .ok items =>
        some (startEvs ++ evs
                ++ [.progress "AI processing completed", .success items],
              .ok items)
    | .error e =>
        some (startEvs ++ evs
                ++ [.error ("Failed to parse AI response: " ++ e.message)],
              .error e)

/-- The concatenation of a chunk list in arrival order. -/
def concatChunks : List String → String
  | [] => ""
  | c :: rest => c ++ concatChunks rest

theorem strDrop_errorSentinel (e : String) : strDrop ("ERROR: " ++ e) 7 = e := by
  unfold strDrop
  have h : (("ERROR: " : String) ++ e).data = ("ERROR: " : String).data ++ e.data := rfl
  rw [h]
  have h7 : (("ERROR: " : String).data).length = 7 := rfl
  rw [← h7, List.drop_left]

theorem strStartsWith_errorSentinel (e : String) :
    strStartsWith ("ERROR: " ++ e) "ERROR:" = true := by
  unfold strStartsWith
  rw [List.isPrefixOf_iff_prefix]
  have h : (("ERROR: " : String) ++ e).data
      = ("ERROR:" : String).data ++ (' ' :: e.data) := rfl
  rw [h]
  exact List.prefix_append _ _

theorem strLen_errorSentinel (e : String) : ¬ strLen ("ERROR: " ++ e) < 7 := by
  unfold strLen
  have h : (("ERROR: " : String) ++ e).data = ("ERROR: " : String).data ++ e.data := rfl
  have h7 : (("ERROR: " : String).data).length = 7 := rfl
  rw [h, List.length_append, h7]
  omega

theorem errorChunk_ne_eofSentinel (e : String) :
    ("ERROR: " ++ e : String) ≠ "EOF_MARKER" := by
  intro h
  have hd := congrArg String.data h
  have h1 : (("ERROR: " : String) ++ e).data
      = 'E' :: 'R' :: 'R' :: 'O' :: 'R' :: ':' :: ' ' :: e.data := rfl
  have h2 : ("EOF_MARKER" : String).data
      = ['E', 'O', 'F', '_', 'M', 'A', 'R', 'K', 'E', 'R'] := rfl
  rw [h1, h2] at hd
  simp at hd

/-- C6: on a transport-level backend failure, `extract_items` publishes
the `Error` events (one from the producer task, one from the consumer
loop, carrying the transport error's message) and terminates with the
`AI` failure — the invocation ends with a returned value (`some`), never
leaving the caller waiting. -/
theorem extract_items_transport_failure
    (fromStr : String → Except String (List Json)) (e : String) :
    extract_items fromStr (.err e)
      = some ([.progress "Starting AI processing...",
               .error ("AI processing failed: " ++ e),
               .error e],
              .error (.AI e)) := by
  unfold extract_items producerChunks producerEvents
  simp only [consumeChunks, if_neg (errorChunk_ne_eofSentinel e),
    strStartsWith_errorSentinel e, if_true, if_neg (strLen_errorSentinel e),
    strDrop_errorSentinel e]
  rfl

/-- C5: when the accumulated buffer fails to parse, `extract_items`
publishes an `Error` event carrying the parser's message and returns the
`AI` failure; it never returns an item list as success. -/
theorem extract_items_parse_failure
    (fromStr : String → Except String (List Json)) (backend : BackendOutcome)
    (buf : String) (evs : List Event) (m : String)
    (hc : consumeChunks (producerChunks backend) "" [] = .finished buf evs)
    (hp : fromStr buf = .error m) :
    extract_items fromStr backend
      = some (Event.progress "Starting AI processing..." :: producerEvents backend
                ++ evs ++ [.error ("Failed to parse AI response: " ++ m)],
              .error (.AI m))
    ∧ ∀ evs2 items, extract_items fromStr backend ≠ some (evs2, .ok items) := by
  have h : extract_items fromStr backend
      = some (Event.progress "Starting AI processing..." :: producerEvents backend
                ++ evs ++ [.error ("Failed to parse AI response: " ++ m)],
              .error (.AI m)) := by
    unfold extract_items parse_ai_response
    simp [hc, hp, AppError.message]
  refine ⟨h, fun evs2 items hcontra => ?_⟩
  rw [h] at hcontra
  simp at hcontra

/-- C5 witness: a backend response that is not valid structured data ends
in an `Error` event and an `AI` failure. -/
theorem extract_items_parse_failure_witness :
    extract_items (fun _ => .error "expected value") (.ok (some "not json"))
      = some ([.progress "Starting AI processing...",
               .scrapingChunk "not json",
               .error ("Failed to parse AI response: " ++ "expected value")],
              .error (.AI "expected value")) :=
  (extract_items_parse_failure (fun _ => .error "expected value")
    (.ok (some "not json")) "not json" [.scrapingChunk "not json"]
    "expected value" rfl rfl).1

theorem consumeChunks_of_plain (chunks : List String) (buf : String)
    (evs : List Event)
    (h : ∀ c ∈ chunks, c ≠ "EOF_MARKER" ∧ strStartsWith c "ERROR:" = false) :
    consumeChunks (chunks ++ ["EOF_MARKER"]) buf evs
      = .finished (buf ++ concatChunks chunks)
          (evs ++ chunks.map Event.scrapingChunk) := by
  induction chunks generalizing buf evs with
  | nil => simp [consumeChunks, concatChunks]
  | cons c rest ih =>
      obtain ⟨h1, h2⟩ := h c (List.mem_cons_self c rest)
      rw [List.cons_append]
      simp only [consumeChunks, if_neg h1, h2, Bool.false_eq_true, if_false]
      rw [ih _ _ (fun d hd => h d (List.mem_cons_of_mem c hd))]
      simp [concatChunks, String.append_assoc]

/-- C7, amended: every received chunk that is neither the end-of-stream
sentinel `"EOF_MARKER"` nor prefixed with the error sentinel `"ERROR:"`
is forwarded to subscribers as a `ScrapingChunk` event as it arrives, and
the buffer handed to the parser is the concatenation of those chunks in
arrival order; a chunk colliding with a sentinel is instead interpreted
as end-of-stream or as an error. -/
theorem chunks_forwarded_and_concatenated (chunks : List String)
    (h : ∀ c ∈ chunks, c ≠ "EOF_MARKER" ∧ strStartsWith c "ERROR:" = false) :
    consumeChunks (chunks ++ ["EOF_MARKER"]) "" []
      = .finished (concatChunks chunks) (chunks.map Event.scrapingChunk) := by
  have := consumeChunks_of_plain chunks "" [] h
  simpa using this

/-- C7 witness: two ordinary chunks are both forwarded, in order, and the
buffer is their concatenation. -/
theorem chunks_forwarded_and_concatenated_witness :
    consumeChunks (["[1, 2", ", 3]"] ++ ["EOF_MARKER"]) "" []
      = .finished (concatChunks ["[1, 2", ", 3]"])
          ([.scrapingChunk "[1, 2", .scrapingChunk ", 3]"]) :=
  chunks_forwarded_and_concatenated ["[1, 2", ", 3]"] (by decide)

/-- C7, counterexample: a backend whose single genuine content chunk is
the string `"EOF_MARKER"` has that chunk treated as the end-of-stream
sentinel — no `ScrapingChunk` event is published for it and the parsed
buffer is empty, not the concatenation of the arrived chunks. -/
theorem chunk_equal_to_eof_dropped :
    consumeChunks (producerChunks (.ok (some "EOF_MARKER"))) "" []
      = .finished "" []
    ∧ ("" : String) ≠ "EOF_MARKER" := by
  exact ⟨rfl, by decide⟩

/-- C10: a received chunk equal to the six-character string `"ERROR:"`
drives the slice `chunk[7..]` out of bounds, so `extract_items` panics
(modelled as `none`) instead of returning a typed failure; genuine model
content beginning with `"ERROR:"` is misinterpreted as the error sentinel
(the invocation fails with the content's tail as message although the
backend succeeded); and genuine content equal to `"EOF_MARKER"` is
misinterpreted as end-of-stream (it is never forwarded and the parsed
buffer is empty). -/
theorem sentinel_collision_misbehaviour :
    extract_items (fun _ => .ok []) (.ok (some "ERROR:")) = none
    ∧ extract_items (fun _ => .ok []) (.ok (some "ERROR: real data"))
        = some ([.progress "Starting AI processing...", .error "real data"],
                .error (.AI "real data"))
    ∧ extract_items (fun _ => .ok []) (.ok (some "EOF_MARKER"))
        = some ([.progress "Starting AI processing...",
                 .progress "AI processing completed", .success []],
                .ok []) := by
  exact ⟨rfl, rfl, rfl⟩

/-! ## Per-item processing and spider construction (`spider.rs`) -/

/-- One observable action of `GenericSpider::process`: publishing an event
to the websocket service, or invoking the AI Extraction Step
(`AIService::extract_items`) on some content. -/
inductive ProcAction where
  | publish (e : Event)
  | invokeAI (content : String)

/-- `GenericSpider::process` (spider.rs:91-103) as its trace of observable
actions: publish a `RawItem` event for the item, then invoke the AI
Extraction Step on the item's content exactly when `enable_scraping` is
set. -/
def GenericSpider.process (sp : GenericSpider) (item : String) : List ProcAction :=
  [.publish (.rawItem item)]
    ++ (if sp.scrape_params.enable_scraping then [.invokeAI item] else [])

/-- C4: with `enable_scraping = false`, `process` publishes the `RawItem`
event and nothing else — in particular the AI Extraction Step is never
invoked and no `ScrapingChunk` event can be produced; with
`enable_scraping = true`, the AI Extraction Step is invoked on the item's
content. -/
theorem process_respects_scraping_flag (sp : GenericSpider) (item : String) :
    (sp.scrape_params.enable_scraping = false →
      sp.process item = [.publish (.rawItem item)]
      ∧ (∀ c, ProcAction.invokeAI c ∉ sp.process item)
      ∧ (∀ s, ProcAction.publish (.scrapingChunk s) ∉ sp.process item))
    ∧ (sp.scrape_params.enable_scraping = true →
      ProcAction.invokeAI item ∈ sp.process item) := by
  constructor
  · intro hoff
    unfold GenericSpider.process
    rw [hoff]
    refine ⟨by simp, fun c hc => ?_, fun s hs => ?_⟩
    · simp at hc
    · simp at hs
  · intro hon
    unfold GenericSpider.process
    rw [hon]
    simp

/-- C4 witness: a concrete spider with scraping disabled produces only the
`RawItem` publish action, and one with scraping enabled invokes the AI
step on the item. -/
theorem process_respects_scraping_flag_witness :
    GenericSpider.process
        ⟨["p"], ⟨"http://site.example/", "m", false, ["title"], false, none, "k"⟩⟩ "x"
      = [.publish (.rawItem "x")]
    ∧ ProcAction.invokeAI "x"
        ∈ GenericSpider.process
            ⟨["p"], ⟨"http://site.example/", "m", true, ["title"], false, none, "k"⟩⟩ "x" :=
  ⟨((process_respects_scraping_flag
      ⟨["p"], ⟨"http://site.example/", "m", false, ["title"], false, none, "k"⟩⟩ "x").1
      rfl).1,
   (process_respects_scraping_flag
      ⟨["p"], ⟨"http://site.example/", "m", true, ["title"], false, none, "k"⟩⟩ "x").2
      rfl⟩

/-- Modelled at the external `scraper` crate's boundary:
`Selector::parse` returns `Err` on a malformed selector string.  The
model captures the simplest malformed input, the empty selector string,
which the library rejects; any non-empty string is taken as parseable. -/
def selectorParse (s : String) : Option String :=
  if s = "" then none else some s

/-- The outcome of `GenericSpider::new` (spider.rs:34-59).  The source
maps `Selector::parse(s).unwrap()` over the selector strings, so a parse
failure panics; there is no error return tied to selector validity (the
only `Err` path is `AIService::new`, which always succeeds,
ai_service.rs:23-36). -/
inductive NewOutcome where
  | panicked
  | ok (sp : GenericSpider)

/-- `GenericSpider::new` (spider.rs:34-59): parse every selector string,
panicking (`unwrap`) on the first malformed one, and otherwise return the
constructed spider. -/
def GenericSpider.new (selectors : List String) (params : ScrapeParams) : NewOutcome :=
  if selectors.all (fun s => (selectorParse s).isSome) then
    .ok ⟨selectors.filterMap selectorParse, params⟩
  else .panicked

/-- C9: on the malformed (empty) user-supplied selector string,
`GenericSpider::new` panics — the construction never produces an error
value such as `InvalidRequest` (the `NewOutcome` type of the embedded
constructor has no error case tied to selector validity). -/
theorem new_panics_on_malformed_selector :
    GenericSpider.new [""]
        ⟨"http://site.example/", "m", true, ["title"], false, none, "k"⟩
      = .panicked := by
  rfl

/-! ## Session Orchestrator (modelled from the spec)

The session orchestration (the route handler in `routes.rs`) is not among
the provided sources; only its collaborators are.  Its request validation
and state machine are modelled from the specification (§4.5). -/

/-- The Session Orchestrator's state machine `Idle → Running →
{Completed, Failed}` (spec §4.5). -/
inductive SessionState where
  | Idle
  | Running
  | Completed
  | Failed
deriving Repr, DecidableEq

/-- Modelled from the spec: the Session Orchestrator's request validation
(`routes.rs` is not among the provided sources).  "validates it has a
non-empty start URL and at least one extraction rule if scraping is
enabled; otherwise fails immediately with `InvalidRequest`". -/
def validateRequest (p : ScrapeParams) : Except AppError Unit :=
  if p.url = "" then .error .InvalidRequest
  else if p.enable_scraping && p.tags.isEmpty then .error .InvalidRequest
  else .ok ()

/-- The observable outcome of starting one session: the state the session
enters after validation, the number of fetches started before the session
either runs or fails, and the validation result. -/
structure SessionStart where
  enteredState : SessionState
  fetchesBeforeRunning : Nat
  validation : Except AppError Unit
deriving Repr

/-- Modelled from the spec: starting a session (`Idle → Running` or an
immediate failure, spec §4.5).  An invalid request fails before any fetch
and never transitions to `Running`; a valid one enters `Running`. -/
def startSession (p : ScrapeParams) : SessionStart :=
  match validateRequest p with
  | .error e => ⟨.Failed, 0, .error e⟩
  | .ok () => ⟨.Running, 0, .ok ()⟩

/-- C8: a request with an empty start URL, or with scraping enabled and
no extraction rule, fails immediately with `InvalidRequest`: no fetch
occurs and the session never transitions to `Running`. -/
theorem invalid_request_fails_before_running (p : ScrapeParams)
    (h : p.url = "" ∨ (p.enable_scraping = true ∧ p.tags = [])) :
    startSession p = ⟨.Failed, 0, .error .InvalidRequest⟩
    ∧ (startSession p).enteredState ≠ .Running := by
  have hv : validateRequest p = .error .InvalidRequest := by
    unfold validateRequest
    rcases h with h1 | ⟨h2, h3⟩
    · rw [if_pos h1]
    · rcases eq_or_ne p.url "" with hu | hu
      · rw [if_pos hu]
      · rw [if_neg hu, if_pos (by simp [h2, h3])]
  constructor
  · unfold startSession
    rw [hv]
  · unfold startSession
    rw [hv]
    simp

/-- C8 witness: empty `tags` with scraping enabled fails fast with
`InvalidRequest`, with no fetch and no transition to `Running`. -/
theorem invalid_request_fails_before_running_witness :
    startSession ⟨"http://site.example/", "m", true, [], false, none, "k"⟩
      = ⟨.Failed, 0, .error .InvalidRequest⟩ :=
  (invalid_request_fails_before_running
    ⟨"http://site.example/", "m", true, [], false, none, "k"⟩
    (Or.inr ⟨rfl, rfl⟩)).1

/-! ## Crawl Scheduler (modelled from the spec)

The crawl scheduler (`crawler.rs`) is not among the provided sources; the
only trace of it in the sources is its construction
`Crawler::new(Duration::from_millis(200), 2, 500)` in `main.rs:24`, which
supplies the politeness delay, `max_concurrency = 2` and
`max_pages = 500`.  Its behaviour is modelled from the specification
(§4.1) as a small-step transition system. -/

/-- The scheduler configuration, as constructed in `main.rs:24`:
politeness delay, concurrency cap, page cap. -/
structure CrawlerConfig where
  delayMs : Nat
  maxConcurrency : Nat
  maxPages : Nat
deriving Repr, DecidableEq

/-- The `CrawlJob` runtime state (spec §3): FIFO frontier, visited set
(URLs already dispatched), in-flight count, pages-fetched count. -/
structure CrawlState where
  frontier : List String
  visited : List String
  inFlight : Nat
  pagesFetched : Nat
deriving Repr, DecidableEq

/-- The initial crawl state: the frontier holds the seed URLs, nothing
visited, nothing in flight, no page fetched. -/
def initCrawlState (seeds : List String) : CrawlState :=
  ⟨seeds, [], 0, 0⟩

/-- Modelled from the spec: which discovered links a completed page adds
to the frontier (spec §4.1) — "enqueues newly discovered links into the
frontier only if: not already visited, not already queued, and the page
cap has not been reached". -/
def enqueueLinks (cfg : CrawlerConfig) (links frontier visited : List String)
    (pagesAfter : Nat) : List String :=
  if pagesAfter < cfg.maxPages then
    frontier ++ links.filter (fun u => !(visited.contains u) && !(frontier.contains u))
  else frontier

/-- Modelled from the spec: one step of the Crawl Scheduler (spec §4.1).
`dispatch` pops the frontier head and starts a fetch, allowed only below
the concurrency cap and only while `pages-fetched + in-flight <
max_pages`; `skipVisited` drops an already-dispatched URL from the
frontier; `complete` finishes one in-flight operation, counts the fetched
page and enqueues the page's admissible links. -/
inductive CrawlStep (cfg : CrawlerConfig) : CrawlState → CrawlState → Prop where
  | dispatch (url : String) (rest visited : List String) (inFlight pages : Nat) :
      inFlight < cfg.maxConcurrency →
      pages + inFlight < cfg.maxPages →
      url ∉ visited →
      CrawlStep cfg ⟨url :: rest, visited, inFlight, pages⟩
        ⟨rest, url :: visited, inFlight + 1, pages⟩
  | skipVisited (url : String) (rest visited : List String) (inFlight pages : Nat) :
      url ∈ visited →
      CrawlStep cfg ⟨url :: rest, visited, inFlight, pages⟩
        ⟨rest, visited, inFlight, pages⟩
  | complete (frontier visited links : List String) (inFlight pages : Nat) :
      CrawlStep cfg ⟨frontier, visited, inFlight + 1, pages⟩
        ⟨enqueueLinks cfg links frontier visited (pages + 1), visited, inFlight, pages + 1⟩

/-- The states a crawl session can reach from a starting state. -/
inductive CrawlReachable (cfg : CrawlerConfig) (s₀ : CrawlState) : CrawlState → Prop where
  | refl : CrawlReachable cfg s₀ s₀
  | step {s s' : CrawlState} :
      CrawlReachable cfg s₀ s → CrawlStep cfg s s' → CrawlReachable cfg s₀ s'

theorem crawlStep_preserves_page_bound {cfg : CrawlerConfig} {s s' : CrawlState}
    (hstep : CrawlStep cfg s s')
    (hinv : s.pagesFetched + s.inFlight ≤ cfg.maxPages) :
    s'.pagesFetched + s'.inFlight ≤ cfg.maxPages := by
  cases hstep with
  | dispatch url rest visited inFlight pages hconc hcap hvis =>
      simpa using hcap
  | skipVisited url rest visited inFlight pages hvis =>
      simpa using hinv
  | complete frontier visited links inFlight pages =>
      simp only at hinv ⊢
      omega

/-- C1: in every crawl session, from the seeded initial state, every
reachable scheduler state keeps `pages-fetched + in-flight` within
`max_pages` — a new fetch is never dispatched once they reach the cap —
and hence the number of pages actually fetched never exceeds
`max_pages`. -/
theorem pages_fetched_never_exceeds_max_pages (cfg : CrawlerConfig)
    (seeds : List String) (s : CrawlState)
    (h : CrawlReachable cfg (initCrawlState seeds) s) :
    s.pagesFetched + s.inFlight ≤ cfg.maxPages
    ∧ s.pagesFetched ≤ cfg.maxPages := by
  have hb : s.pagesFetched + s.inFlight ≤ cfg.maxPages := by
    induction h with
    | refl => simp [initCrawlState]
    | step hreach hstep ih => exact crawlStep_preserves_page_bound hstep ih
  exact ⟨hb, by omega⟩

/-- C1 witness: the configuration constructed in `main.rs:24`
(`delay = 200ms`, `max_concurrency = 2`, `max_pages = 500`), a session
seeded with one URL, and a state reached by dispatching and completing
that fetch: the page count stays within the cap. -/
theorem pages_fetched_never_exceeds_max_pages_witness :
    (⟨[], ["http://site.example/"], 0, 1⟩ : CrawlState).pagesFetched + 0 ≤ 500
    ∧ (⟨[], ["http://site.example/"], 0, 1⟩ : CrawlState).pagesFetched ≤ 500 :=
  pages_fetched_never_exceeds_max_pages ⟨200, 2, 500⟩ ["http://site.example/"]
    ⟨[], ["http://site.example/"], 0, 1⟩
    (.step (.step .refl
        (.dispatch "http://site.example/" [] [] 0 0 (by decide) (by decide)
          (by simp)))
      (by
        have h := @CrawlStep.complete ⟨200, 2, 500⟩
          [] ["http://site.example/"] [] 0 0
        simpa [enqueueLinks] using h))

end Scrapy
